import Mathlib

/-!
Shallow embedding of `tgb/edgeregression/dataset.py` from the TGB repository
(class `EdgeRegressionDataset`), together with spec-modelled stand-ins for the
helpers it imports from `tgb.utils.pre_process` (`_to_pd_data`, `reindex`) and
for the negative-sampling engine, whose code is not part of the excerpt.

Machine integers of the source are modelled by `Nat`/`Int`; numpy arrays by an
explicit matrix of integer entries (every feature matrix the source builds is
zero-filled); the filesystem by a small environment of boolean existence flags
plus the parsed content of the input csv; exceptions by `Except`.
-/

/-- One raw row of the input edge file: source id, destination id, timestamp,
weight. Timestamps and ids are modelled as naturals, the weight as an integer. -/
structure RawEdge where
  u : Nat
  i : Nat
  ts : Nat
  w : Int
deriving DecidableEq

/-- One row of the processed dataframe `df` used by `dataset.py`: columns
`u`, `i`, `ts`, `idx`, `w` (the columns `pre_process` reads). -/
structure Row where
  u : Nat
  i : Nat
  ts : Nat
  idx : Nat
  w : Int
deriving DecidableEq

/-- A dense numeric matrix (numpy 2-d array): explicit row and column counts
plus the list of rows of entries.  The column count is carried separately so a
0-row matrix still has a shape, as in numpy. -/
structure Mat where
  nrows : Nat
  ncols : Nat
  entries : List (List Int)
deriving DecidableEq

/-- `np.zeros((r, c))`. -/
def zerosMat (r c : Nat) : Mat :=
  ⟨r, c, List.replicate r (List.replicate c 0)⟩

/-- The dictionary built by `pre_process` and stored in `self._full_data`:
keys `sources`, `destinations`, `timestamps`, `edge_idxs`, `y`. -/
structure FullData where
  sources : List Nat
  destinations : List Nat
  timestamps : List Nat
  edge_idxs : List Nat
  y : List Int
deriving DecidableEq

/-- The Python exceptions raised by `dataset.py`: `FileNotFoundError` and
`ValueError`, each carrying its message. -/
inductive PyErr where
  | fileNotFoundError : String → PyErr
  | valueError : String → PyErr
deriving DecidableEq

/-- The filesystem environment a dataset instance sees: whether `self.root`
is a directory, whether the input file `self.meta_dict['fname']` exists,
whether the three `ml_*` output files already exist, and the parsed rows of
the input csv. -/
structure Env where
  dirExists : Bool
  fnameExists : Bool
  outFilesExist : Bool
  raw : List RawEdge
deriving DecidableEq

/-- Modelled from the spec: `_to_pd_data` is imported from
`tgb.utils.pre_process`, which is not part of the source excerpt.  Per the
spec (RawEdgeLoader, section 4.1) it parses the edge table into typed columns
without reordering rows, assigns the integer index column by row order, and
returns an accompanying feature matrix, zero-filled to the fixed default
dimension 172 when no native features exist (the source notes "currently the
feat is empty").  Index origin is taken to be 0. -/
def toPdData (raw : List RawEdge) : List Row × Mat :=
  (raw.enum.map (fun p => ⟨p.2.u, p.2.i, p.2.ts, p.1, p.2.w⟩),
   zerosMat raw.length 172)

/-- Look a raw id up in the association list raw-id ↦ dense-id, adding a fresh
dense id (the next unused one) if absent. -/
def lookupOrAdd (m : List (Nat × Nat)) (rawId : Nat) : Nat × List (Nat × Nat) :=
  match m.lookup rawId with
  | some d => (d, m)
  | none => (m.length, m ++ [(rawId, m.length)])

/-- Worker for `reindex`: walks the rows in order, assigning dense ids in
first-seen order (source column before destination column within a row). -/
def reindexGo : List Row → List (Nat × Nat) → List Row
  | [], _ => []
  | r :: rest, m =>
    let p1 := lookupOrAdd m r.u
    let p2 := lookupOrAdd p1.2 r.i
    { r with u := p1.1, i := p2.1 } :: reindexGo rest p2.2

/-- Modelled from the spec: `reindex` is imported from `tgb.utils.pre_process`,
which is not part of the source excerpt.  Per the spec (Reindexer, section
4.2), in non-bipartite mode (the only mode `dataset.py` uses:
`reindex(df, bipartite=False)`) it maps raw node identifiers to a dense
contiguous integer space in first-seen order, starting at origin 0, and
returns the remapped edges without changing their number or order. -/
def reindex (df : List Row) : List Row :=
  reindexGo df []

/-- The mutable fields of an `EdgeRegressionDataset` instance, as initialized
in `__init__` (all `None`) and updated by `pre_process`. -/
structure EdgeRegressionDataset where
  _node_feat : Option Mat
  _edge_feat : Option Mat
  _full_data : Option FullData
  _train_data : Option FullData
  _val_data : Option FullData
  _test_data : Option FullData
deriving DecidableEq

/-- The field state right after the `#initialize` block of `__init__`. -/
def freshFields : EdgeRegressionDataset :=
  ⟨none, none, none, none, none, none⟩

/-- The message of the `ValueError` raised by the four split/full accessors. -/
def notProcessedMsg : String :=
  "dataset has not been processed yet, please call pre_process() first"

/-- `EdgeRegressionDataset.pre_process(feat_dim=172)`: checks that the input
file exists (else `FileNotFoundError`), loads and reindexes the dataframe,
then overwrites `_node_feat` and `_edge_feat` with zero matrices of shape
`(df.shape[0], feat_dim)` and `_full_data` with the column dictionary.
It does not touch `_train_data`, `_val_data` or `_test_data`. -/
def EdgeRegressionDataset.pre_process (env : Env) (s : EdgeRegressionDataset)
    (feat_dim : Nat) : Except PyErr EdgeRegressionDataset :=
  if env.fnameExists = false then
    .error (.fileNotFoundError "File not found at fname")
  else
    let df := reindex (toPdData env.raw).1
    .ok { s with
      _node_feat := some (zerosMat df.length feat_dim),
      _edge_feat := some (zerosMat df.length feat_dim),
      _full_data := some ⟨df.map (·.u), df.map (·.i), df.map (·.ts),
                          df.map (·.idx), df.map (·.w)⟩ }

/-- The three files written by `output_ml_files`: `ml_<name>.csv` (the
reindexed dataframe), `ml_<name>.npy` (edge features) and
`ml_<name>_node.npy` (node features). -/
structure MLFiles where
  out_df : List Row
  out_feat : Mat
  out_node_feat : Mat
deriving DecidableEq

/-- `max(df.u.max(), df.i.max())` over the dataframe (0 on an empty frame). -/
def maxIdx (df : List Row) : Nat :=
  df.foldl (fun a r => max a (max r.u r.i)) 0

/-- `EdgeRegressionDataset.output_ml_files()`: checks that the input file
exists (else `FileNotFoundError`); if the three output files already exist it
skips generation (`ok none`); otherwise it loads, reindexes, stacks an extra
zero row on top of the edge feature matrix, builds the node feature matrix
`np.zeros((max_idx + 1, 172))` and returns the three artifacts to be written. -/
def EdgeRegressionDataset.output_ml_files (env : Env) :
    Except PyErr (Option MLFiles) :=
  if env.fnameExists = false then
    .error (.fileNotFoundError "File not found at fname")
  else if env.outFilesExist then
    .ok none
  else
    let p := toPdData env.raw
    let df := reindex p.1
    let feat : Mat :=
      ⟨p.2.nrows + 1, p.2.ncols, List.replicate p.2.ncols (0 : Int) :: p.2.entries⟩
    .ok (some ⟨df, feat, zerosMat (maxIdx df + 1) 172⟩)

/-- `EdgeRegressionDataset.__init__(name, root, meta_dict, preprocess)`:
raises `FileNotFoundError` when the resolved root directory does not exist,
otherwise initializes all six data fields to `None` and, when `preprocess`
is true, runs `pre_process()` (with its default `feat_dim=172`). -/
def EdgeRegressionDataset.init (env : Env) (preprocess : Bool) :
    Except PyErr EdgeRegressionDataset :=
  if env.dirExists = false then
    .error (.fileNotFoundError "Directory not found at root")
  else if preprocess then
    EdgeRegressionDataset.pre_process env freshFields 172
  else
    .ok freshFields

/-- `EdgeRegressionDataset.generate_splits(full_data)`: despite its docstring
and its (broken, `Tuple` is unimported) annotation promising a triple of
train/val/test dictionaries, its body is `print("hi")`, so it returns `None`. -/
def EdgeRegressionDataset.generate_splits (full_data : FullData) :
    Option (FullData × FullData × FullData) :=
  none

/-- The `node_feat` property: returns `self._node_feat`; never raises. -/
def EdgeRegressionDataset.node_feat (s : EdgeRegressionDataset) :
    Except PyErr (Option Mat) :=
  .ok s._node_feat

/-- The `edge_feat` property: returns `self._edge_feat`; never raises. -/
def EdgeRegressionDataset.edge_feat (s : EdgeRegressionDataset) :
    Except PyErr (Option Mat) :=
  .ok s._edge_feat

/-- The `full_data` property: raises `ValueError` when `_full_data is None`. -/
def EdgeRegressionDataset.full_data (s : EdgeRegressionDataset) :
    Except PyErr FullData :=
  match s._full_data with
  | none => .error (.valueError notProcessedMsg)
  | some d => .ok d

/-- The `train_data` property: raises `ValueError` when `_train_data is None`. -/
def EdgeRegressionDataset.train_data (s : EdgeRegressionDataset) :
    Except PyErr FullData :=
  match s._train_data with
  | none => .error (.valueError notProcessedMsg)
  | some d => .ok d

/-- The `val_data` property: raises `ValueError` when `_val_data is None`. -/
def EdgeRegressionDataset.val_data (s : EdgeRegressionDataset) :
    Except PyErr FullData :=
  match s._val_data with
  | none => .error (.valueError notProcessedMsg)
  | some d => .ok d

/-- The `test_data` property: raises `ValueError` when `_test_data is None`. -/
def EdgeRegressionDataset.test_data (s : EdgeRegressionDataset) :
    Except PyErr FullData :=
  match s._test_data with
  | none => .error (.valueError notProcessedMsg)
  | some d => .ok d

/-- Modelled from the spec: the negative-sampling policies (section 4.4);
the engine's code is not part of the source excerpt. -/
inductive Policy where
  | randomUniform
  | historical
  | inductiveUnseen
deriving DecidableEq

/-- Modelled from the spec: a positive query
`(source, destination, timestamp, relation)` of the negative-sampling engine. -/
structure NSQuery where
  src : Nat
  dst : Nat
  ts : Nat
  rel : Nat
deriving DecidableEq

/-- Modelled from the spec: the seeded, per-query deterministic pseudo-random
stream the spec mandates (section 4.4: "derive all randomness from a seeded,
per-query deterministic stream, e.g., seed combined with the query key"). -/
def nsMix (seed : Nat) (q : NSQuery) (j : Nat) : Nat :=
  (seed * 1000003 + q.src * 97 + q.dst * 89 + q.ts * 83 + q.rel * 79 + j * 73)
    % 1000000007

/-- Modelled from the spec: one random-uniform draw over the `numNodes`
destination ids, excluding the true positive destination of the query. -/
def uniformDraw (numNodes seed : Nat) (q : NSQuery) (j : Nat) : Nat :=
  let c := nsMix seed q j % max numNodes 1
  if c = q.dst then (c + 1) % max numNodes 1 else c

/-- Modelled from the spec: the historical candidate pool of a query —
destinations previously observed connected to the same source at earlier
timestamps. -/
def historicalPool (split : List NSQuery) (q : NSQuery) : List Nat :=
  ((split.filter fun h => decide (h.src = q.src ∧ h.ts < q.ts)).map
    NSQuery.dst).dedup

/-- Modelled from the spec: the inductive candidate pool — destination ids
that did not appear before the split's start time. -/
def inductivePool (split : List NSQuery) (splitStart numNodes : Nat) :
    List Nat :=
  (List.range numNodes).filter fun v =>
    decide (∀ h ∈ split, h.ts < splitStart → h.dst ≠ v)

/-- Modelled from the spec: the j-th draw from a restricted candidate pool,
padded with random-uniform draws when the pool is smaller than requested. -/
def poolDraw (pool : List Nat) (numNodes seed : Nat) (q : NSQuery) (j : Nat) :
    Nat :=
  if j < pool.length then pool.getD (nsMix seed q j % max pool.length 1) 0
  else uniformDraw numNodes seed q j

/-- Modelled from the spec: the negatives generated for one positive query
under the selected policy. -/
def sampleQuery (policy : Policy) (split : List NSQuery)
    (splitStart numNodes n seed : Nat) (q : NSQuery) : List Nat :=
  match policy with
  | .randomUniform => (List.range n).map (uniformDraw numNodes seed q)
  | .historical =>
      (List.range n).map
        (poolDraw ((historicalPool split q).filter fun v => decide (v ≠ q.dst))
          numNodes seed q)
  | .inductiveUnseen =>
      (List.range n).map
        (poolDraw ((inductivePool split splitStart numNodes).filter
            fun v => decide (v ≠ q.dst))
          numNodes seed q)

/-- Modelled from the spec: `build(split, policy, num_negatives_per_positive,
seed)` of the NegativeSamplingEngine (section 4.4) — materializes, for every
positive query of the split, its sequence of negative destination candidates,
with all randomness derived from the seed and the query key. -/
def NegativeSamplingEngine.build (split : List NSQuery) (policy : Policy)
    (numNeg seed numNodes splitStart : Nat) : List (NSQuery × List Nat) :=
  split.map fun q => (q, sampleQuery policy split splitStart numNodes numNeg seed q)

/-- Modelled from the spec: serialization of a `NegativeSampleSet` to the
persisted per-split artifact, flattening each query key followed by its
negative candidate sequence. -/
def serializeNS (s : List (NSQuery × List Nat)) : List Nat :=
  s.flatMap fun p => p.1.src :: p.1.dst :: p.1.ts :: p.1.rel :: p.2

/-! ### Helper lemmas -/

theorem reindexGo_length (l : List Row) (m : List (Nat × Nat)) :
    (reindexGo l m).length = l.length := by
  induction l generalizing m with
  | nil => rfl
  | cons r rest ih => simp [reindexGo, ih]

theorem reindex_length (df : List Row) : (reindex df).length = df.length :=
  reindexGo_length df []

theorem toPdData_length (raw : List RawEdge) :
    (toPdData raw).1.length = raw.length := by
  simp [toPdData]

theorem pre_process_missing_source (env : Env) (s : EdgeRegressionDataset)
    (d : Nat) (h : env.fnameExists = false) :
    EdgeRegressionDataset.pre_process env s d =
      .error (.fileNotFoundError "File not found at fname") := by
  simp [EdgeRegressionDataset.pre_process, h]

theorem output_ml_files_missing_source (env : Env)
    (h : env.fnameExists = false) :
    EdgeRegressionDataset.output_ml_files env =
      .error (.fileNotFoundError "File not found at fname") := by
  simp [EdgeRegressionDataset.output_ml_files, h]

theorem pre_process_ok (env : Env) (s : EdgeRegressionDataset) (d : Nat)
    (h : env.fnameExists = true) :
    EdgeRegressionDataset.pre_process env s d =
      .ok { s with
        _node_feat := some (zerosMat env.raw.length d),
        _edge_feat := some (zerosMat env.raw.length d),
        _full_data := some ⟨(reindex (toPdData env.raw).1).map (·.u),
                            (reindex (toPdData env.raw).1).map (·.i),
                            (reindex (toPdData env.raw).1).map (·.ts),
                            (reindex (toPdData env.raw).1).map (·.idx),
                            (reindex (toPdData env.raw).1).map (·.w)⟩ } := by
  simp [EdgeRegressionDataset.pre_process, h, reindex_length, toPdData_length]

/-! ### Concrete environments used as witnesses and failing inputs -/

/-- An environment with a valid directory and a one-edge input file. -/
def envOne : Env := ⟨true, true, false, [⟨3, 5, 7, 2⟩]⟩

/-- An environment whose root directory is missing. -/
def envNoDir : Env := ⟨false, true, false, []⟩

/-- An environment whose input csv file is missing. -/
def envNoFile : Env := ⟨true, false, false, []⟩

/-- A four-edge input file over two distinct raw nodes (7 and 9): the number
of edges (4) differs from the number of dense node ids (2). -/
def envFour : Env :=
  ⟨true, true, false, [⟨7, 9, 1, 0⟩, ⟨7, 9, 2, 0⟩, ⟨9, 7, 3, 0⟩, ⟨7, 9, 4, 0⟩]⟩

/-- The dataset state `pre_process` produces from `envOne` and fresh fields. -/
def preOne : EdgeRegressionDataset :=
  { freshFields with
    _node_feat := some (zerosMat 1 172),
    _edge_feat := some (zerosMat 1 172),
    _full_data := some ⟨[0], [1], [7], [0], [2]⟩ }

/-! ### Claim theorems -/

/-- Claim C1 (code behavior at the failing input): constructing a dataset with
`preprocess=True` over an existing directory and input file succeeds —
`pre_process()` returns normally and `_full_data` is populated — yet the
`train_data`, `val_data` and `test_data` accessors still raise the
not-preprocessed `ValueError`, because `pre_process` never assigns the split
fields.  This contradicts the claim that the split accessors succeed after the
pipeline has run. -/
theorem C1_split_accessors_fail_after_pre_process :
    (EdgeRegressionDataset.init envOne true).map
        (fun s => (s._full_data.isSome,
                   EdgeRegressionDataset.train_data s,
                   EdgeRegressionDataset.val_data s,
                   EdgeRegressionDataset.test_data s)) =
      .ok (true,
           .error (.valueError notProcessedMsg),
           .error (.valueError notProcessedMsg),
           .error (.valueError notProcessedMsg)) := by
  rfl

/-- Claim C2 (code behavior): `generate_splits` never returns the three split
structures the claim (and its own docstring) promise — its body only prints,
so it returns `None` on every input. -/
theorem C2_generate_splits_returns_no_splits (fd : FullData) :
    EdgeRegressionDataset.generate_splits fd = none :=
  rfl

/-- Claim C3: for a fixed `(seed, policy, split)` (and fixed remaining build
parameters), two calls of the negative-sampling `build` operation yield
identical `NegativeSampleSet` contents, both in memory and in the serialized
persisted artifact. -/
theorem C3_build_deterministic (s1 s2 : List NSQuery) (p1 p2 : Policy)
    (n1 n2 seed1 seed2 nn1 nn2 st1 st2 : Nat)
    (hs : s1 = s2) (hp : p1 = p2) (hn : n1 = n2) (hseed : seed1 = seed2)
    (hnn : nn1 = nn2) (hst : st1 = st2) :
    NegativeSamplingEngine.build s1 p1 n1 seed1 nn1 st1 =
      NegativeSamplingEngine.build s2 p2 n2 seed2 nn2 st2 ∧
    serializeNS (NegativeSamplingEngine.build s1 p1 n1 seed1 nn1 st1) =
      serializeNS (NegativeSamplingEngine.build s2 p2 n2 seed2 nn2 st2) := by
  subst hs hp hn hseed hnn hst
  exact ⟨rfl, rfl⟩

/-- Witness for C3 at a concrete one-query split. -/
theorem C3_build_deterministic_witness :
    NegativeSamplingEngine.build [⟨0, 1, 2, 0⟩] .randomUniform 3 42 5 0 =
      NegativeSamplingEngine.build [⟨0, 1, 2, 0⟩] .randomUniform 3 42 5 0 ∧
    serializeNS (NegativeSamplingEngine.build [⟨0, 1, 2, 0⟩] .randomUniform 3 42 5 0) =
      serializeNS (NegativeSamplingEngine.build [⟨0, 1, 2, 0⟩] .randomUniform 3 42 5 0) :=
  C3_build_deterministic [⟨0, 1, 2, 0⟩] [⟨0, 1, 2, 0⟩] .randomUniform
    .randomUniform 3 3 42 42 5 5 0 0 rfl rfl rfl rfl rfl rfl

/-- Claim C4 (code behavior at the failing input `envFour`, a four-edge file
over two distinct nodes): the artifact written by `output_ml_files` has a
node-aligned node feature matrix with `max_idx + 1 = 2` rows, but the
`node_feat` matrix produced by `pre_process` has one row per edge (4 rows),
so it is not node-aligned, contradicting the claim for `pre_process`. -/
theorem C4_pre_process_node_feat_not_node_aligned :
    (EdgeRegressionDataset.output_ml_files envFour).map
        (Option.map fun f => f.out_node_feat.nrows) = .ok (some 2) ∧
    (EdgeRegressionDataset.pre_process envFour freshFields 172).map
        (fun s => s._node_feat.map Mat.nrows) = .ok (some 4) ∧
    maxIdx (reindex (toPdData envFour.raw).1) + 1 = 2 ∧
    (4 : Nat) ≠ 2 := by
  refine ⟨rfl, rfl, rfl, by decide⟩

/-- Claim C5: a dataset constructed with `preprocess=False` (so `__init__`
returned it without running the pipeline) raises the not-preprocessed
`ValueError` from `train_data`, `val_data`, `test_data` and `full_data`
rather than returning an empty or partial structure. -/
theorem C5_accessors_error_without_preprocess (env : Env)
    (s : EdgeRegressionDataset)
    (h : EdgeRegressionDataset.init env false = .ok s) :
    EdgeRegressionDataset.train_data s = .error (.valueError notProcessedMsg) ∧
    EdgeRegressionDataset.val_data s = .error (.valueError notProcessedMsg) ∧
    EdgeRegressionDataset.test_data s = .error (.valueError notProcessedMsg) ∧
    EdgeRegressionDataset.full_data s = .error (.valueError notProcessedMsg) := by
  have hs : s = freshFields := by
    unfold EdgeRegressionDataset.init at h
    split at h
    · cases h
    · simp at h
      exact h.symm
  subst hs
  exact ⟨rfl, rfl, rfl, rfl⟩

/-- Witness for C5 on the concrete environment `envOne`. -/
theorem C5_accessors_error_without_preprocess_witness :
    EdgeRegressionDataset.train_data freshFields =
      .error (.valueError notProcessedMsg) ∧
    EdgeRegressionDataset.val_data freshFields =
      .error (.valueError notProcessedMsg) ∧
    EdgeRegressionDataset.test_data freshFields =
      .error (.valueError notProcessedMsg) ∧
    EdgeRegressionDataset.full_data freshFields =
      .error (.valueError notProcessedMsg) :=
  C5_accessors_error_without_preprocess envOne freshFields rfl

/-- Claim C6: when the configured input file does not exist, both
`pre_process` and `output_ml_files` fail with the missing-source
`FileNotFoundError`, producing nothing (no parsed frame, no artifacts). -/
theorem C6_missing_source_error (env : Env) (s : EdgeRegressionDataset)
    (d : Nat) (h : env.fnameExists = false) :
    EdgeRegressionDataset.pre_process env s d =
      .error (.fileNotFoundError "File not found at fname") ∧
    EdgeRegressionDataset.output_ml_files env =
      .error (.fileNotFoundError "File not found at fname") :=
  ⟨pre_process_missing_source env s d h, output_ml_files_missing_source env h⟩

/-- Witness for C6 on the concrete environment `envNoFile`. -/
theorem C6_missing_source_error_witness :
    EdgeRegressionDataset.pre_process envNoFile freshFields 172 =
      .error (.fileNotFoundError "File not found at fname") ∧
    EdgeRegressionDataset.output_ml_files envNoFile =
      .error (.fileNotFoundError "File not found at fname") :=
  C6_missing_source_error envNoFile freshFields 172 rfl

/-- Claim C7: after `pre_process` with the default feature dimension on an
input with no native features, the edge feature matrix is the zero-filled
matrix with exactly 172 columns and one row per parsed edge. -/
theorem C7_edge_feat_zero_filled (env : Env) (s t : EdgeRegressionDataset)
    (h : EdgeRegressionDataset.pre_process env s 172 = .ok t) :
    t._edge_feat = some (zerosMat env.raw.length 172) ∧
    (zerosMat env.raw.length 172).ncols = 172 ∧
    (zerosMat env.raw.length 172).nrows = env.raw.length ∧
    (zerosMat env.raw.length 172).entries =
      List.replicate env.raw.length (List.replicate 172 (0 : Int)) := by
  cases hf : env.fnameExists with
  | false => rw [pre_process_missing_source env s 172 hf] at h; cases h
  | true =>
    rw [pre_process_ok env s 172 hf] at h
    cases h
    exact ⟨rfl, rfl, rfl, rfl⟩

/-- Witness for C7 on the concrete environment `envOne`. -/
theorem C7_edge_feat_zero_filled_witness :
    preOne._edge_feat = some (zerosMat envOne.raw.length 172) ∧
    (zerosMat envOne.raw.length 172).ncols = 172 ∧
    (zerosMat envOne.raw.length 172).nrows = envOne.raw.length ∧
    (zerosMat envOne.raw.length 172).entries =
      List.replicate envOne.raw.length (List.replicate 172 (0 : Int)) :=
  C7_edge_feat_zero_filled envOne freshFields preOne rfl

/-- Claim C8: in every dataset state, the `node_feat` and `edge_feat`
accessors never raise: they return the stored feature matrix when it has been
computed and `None` otherwise. -/
theorem C8_feat_accessors_never_raise (s : EdgeRegressionDataset) :
    (∀ e, EdgeRegressionDataset.node_feat s ≠ .error e) ∧
    (∀ e, EdgeRegressionDataset.edge_feat s ≠ .error e) ∧
    EdgeRegressionDataset.node_feat s = .ok s._node_feat ∧
    EdgeRegressionDataset.edge_feat s = .ok s._edge_feat := by
  refine ⟨fun e h => ?_, fun e h => ?_, rfl, rfl⟩
  · exact Except.noConfusion h
  · exact Except.noConfusion h

/-- Claim C9: `pre_process` modifies only the node-feature, edge-feature and
full-data fields; the train, validation and test split fields are left
unchanged, and starting from a freshly constructed dataset they remain
`None`. -/
theorem C9_pre_process_frame (env : Env) (s t : EdgeRegressionDataset)
    (d : Nat) (h : EdgeRegressionDataset.pre_process env s d = .ok t) :
    t._train_data = s._train_data ∧ t._val_data = s._val_data ∧
    t._test_data = s._test_data ∧
    (s = freshFields →
      t._train_data = none ∧ t._val_data = none ∧ t._test_data = none) := by
  cases hf : env.fnameExists with
  | false => rw [pre_process_missing_source env s d hf] at h; cases h
  | true =>
    rw [pre_process_ok env s d hf] at h
    cases h
    refine ⟨rfl, rfl, rfl, fun hs => ?_⟩
    subst hs
    exact ⟨rfl, rfl, rfl⟩

/-- Witness for C9 on the concrete environment `envOne` starting from fresh
fields. -/
theorem C9_pre_process_frame_witness :
    preOne._train_data = freshFields._train_data ∧
    preOne._val_data = freshFields._val_data ∧
    preOne._test_data = freshFields._test_data ∧
    (freshFields = freshFields →
      preOne._train_data = none ∧ preOne._val_data = none ∧
      preOne._test_data = none) :=
  C9_pre_process_frame envOne freshFields preOne 172 rfl

/-- Claim C10: when the resolved dataset root directory does not exist, the
constructor raises `FileNotFoundError` for every value of `preprocess`, so no
dataset object is created over a nonexistent root directory. -/
theorem C10_init_missing_dir (env : Env) (preprocess : Bool)
    (h : env.dirExists = false) :
    EdgeRegressionDataset.init env preprocess =
      .error (.fileNotFoundError "Directory not found at root") := by
  simp [EdgeRegressionDataset.init, h]

/-- Witness for C10 on the concrete environment `envNoDir`. -/
theorem C10_init_missing_dir_witness :
    EdgeRegressionDataset.init envNoDir true =
      .error (.fileNotFoundError "Directory not found at root") :=
  C10_init_missing_dir envNoDir true rfl
